import Mathlib

/-!
Verification of the node_apns push-notification library against its
natural-language specification.

The JavaScript sources under lib/ are shallowly embedded as executable Lean
definitions:

* lib/feedback.js   — the feedback-stream reader (buffer refill and tuple
  parsing), modelled byte-for-byte on lists of naturals;
* lib/push.js       — sequence-number assignment of sendNotification and the
  inbound data handler that decodes 6-byte error records;
* lib/notification.js — Notification validity, payload normalisation, JSON
  serialisation and the binary wire format (toNetwork);
* lib/device.js     — hex device tokens;
* lib/services.js   — the Notifier: pending queue, in-flight table, blacklist,
  event log, suspend/restart, the consumer loop with its grace timer, and the
  notificationError / error / close handlers.

Machine integers are Nat (bytes are naturals < 256, written big-endian with
explicit division/mod); JavaScript timer state is modelled by booleans
recording whether the timer is scheduled; completion-handler invocations are
recorded as an explicit event list (notification, error argument) since the
handlers themselves are opaque caller code.  Wall-clock dates stored in
event-log entries and the blacklist are dropped: no claim observes them.
-/

namespace NodeApns

/-! ## Byte helpers (Buffer.readUIntBE / writeUIntBE) -/

/-- Buffer.readUInt32BE: big-endian 4-byte read at an offset.  Bytes past the
end of the buffer read as 0 (the modelled buffers are always long enough at
every use site reached by the claims). -/
def readUInt32BE (b : List Nat) (off : Nat) : Nat :=
  b.getD off 0 * 2 ^ 24 + b.getD (off + 1) 0 * 2 ^ 16 +
    b.getD (off + 2) 0 * 2 ^ 8 + b.getD (off + 3) 0

/-- Buffer.readUInt16BE: big-endian 2-byte read at an offset. -/
def readUInt16BE (b : List Nat) (off : Nat) : Nat :=
  b.getD off 0 * 2 ^ 8 + b.getD (off + 1) 0

/-- Big-endian byte encoding of a value on a fixed number of bytes, as
produced by Buffer.writeUInt8/16BE/32BE.  Node throws when the value is out
of range; the theorems below keep values in range by hypothesis, and the
definition reduces the value modulo the byte width. -/
def toBytesBE : Nat → Nat → List Nat
  | 0, _ => []
  | n + 1, v => v / 256 ^ n % 256 :: toBytesBE n v

@[simp] theorem toBytesBE_length (n v : Nat) : (toBytesBE n v).length = n := by
  induction n generalizing v with
  | zero => rfl
  | succ n ih => simp [toBytesBE, ih]

theorem readUInt32BE_toBytesBE (v : Nat) (rest : List Nat) (hv : v < 2 ^ 32) :
    readUInt32BE (toBytesBE 4 v ++ rest) 0 = v := by
  have h : toBytesBE 4 v ++ rest =
      v / 256 ^ 3 % 256 :: v / 256 ^ 2 % 256 :: v / 256 ^ 1 % 256 ::
        v / 256 ^ 0 % 256 :: rest := rfl
  rw [h]
  simp [readUInt32BE]
  omega

theorem readUInt16BE_toBytesBE (v : Nat) (rest : List Nat) (hv : v < 2 ^ 16) :
    readUInt16BE (toBytesBE 2 v ++ rest) 0 = v := by
  have h : toBytesBE 2 v ++ rest = v / 256 ^ 1 % 256 :: v / 256 ^ 0 % 256 :: rest := rfl
  rw [h]
  simp [readUInt16BE]
  omega

/-! ## FeedbackReader (lib/feedback.js)

The reader owns a byte buffer of APNS.feedback.tupleSize * bufferSize bytes
and a fill index (freeIndex).  Each inbound chunk is fed through feedBuffer;
on stream end any unflushed bytes are parsed and the terminal end event is
emitted.  Events are collected in order.

The tuples() loop copies each record out of the buffer with
buffer.copy(tuple, 0, i, tuple.length).  Buffer.copy's third and fourth
arguments are sourceStart and sourceEnd, so the copied source range is
[i, tupleSize) — not [i, i + tupleSize).  Only the iteration at i = 0 fills
its tuple with the intended bytes; at i = tupleSize nothing is copied
(sourceEnd = sourceStart) and the freshly allocated, uninitialized
new Buffer(tupleSize) is decoded as it stands, and for i > tupleSize the
copy throws "sourceEnd < sourceStart", an exception that escapes the data
(or end) handler.  The model reproduces this: the fresh parameter stands
for the uninitialized contents a freshly allocated tuple Buffer happens to
hold (only one allocation's contents are ever decoded per flush, so a
single parameter suffices, and the theorems quantify over it), and the
Bool in each result records whether the copy threw — after a throw nothing
later in the handler runs, so no further bytes are consumed and no end
event is emitted. -/

/-- APNS.feedback.tupleSize from lib/constants.js: 4 + 2 + 32 bytes. -/
def tupleSize : Nat := 38

/-- Events emitted by the feedback reader.  The source renders the token
bytes as a hex string before emitting; the rendering is a bijection on byte
lists and is elided here, the event carries the token bytes themselves. -/
inductive FBEvent where
  | device (time : Nat) (token : List Nat)
  | ended
deriving DecidableEq, Repr

/-- Buffer.copy source→target at a target offset, as used by feedBuffer:
overwrites target bytes [off, off + data.length) with data.  At every call
site the data fits inside the target, so the length is preserved there. -/
def writeBytes (buffer : List Nat) (off : Nat) (data : List Nat) : List Nat :=
  buffer.take off ++ data ++ buffer.drop (off + data.length)

theorem writeBytes_length (buffer : List Nat) (off : Nat) (data : List Nat)
    (h : off + data.length ≤ buffer.length) :
    (writeBytes buffer off data).length = buffer.length := by
  simp [writeBytes]
  omega

/-- One iteration's tuple: new Buffer(tupleSize) followed by
buffer.copy(tuple, 0, i, tuple.length).  The copied source range is
[i, tupleSize); the bytes of the tuple beyond the copied length keep the
allocation's uninitialized contents, modelled by fresh.  none models the
throw for sourceEnd < sourceStart (tupleSize < i). -/
def copyTuple (fresh buffer : List Nat) (i : Nat) : Option (List Nat) :=
  if tupleSize < i then none
  else
    let copied := (buffer.drop i).take (tupleSize - i)
    some (copied ++ (fresh.drop copied.length).take (tupleSize - copied.length))

/-- The tuples() loop from a start index: while i < freeIndex, step
tupleSize, copy the tuple out (see copyTuple) and emit the decoded device
event (readUInt32BE at 0, slice from 6 of length readUInt16BE at 4);
a throwing copy aborts the loop (second component true). -/
def tuplesFrom (fresh buffer : List Nat) (i freeIndex : Nat) : List FBEvent × Bool :=
  if _h : i < freeIndex then
    match copyTuple fresh buffer i with
    | none => ([], true)
    | some tuple =>
      let r := tuplesFrom fresh buffer (i + tupleSize) freeIndex
      (.device (readUInt32BE tuple 0) ((tuple.drop 6).take (readUInt16BE tuple 4)) :: r.1,
        r.2)
  else ([], false)
termination_by freeIndex - i
decreasing_by simp [tupleSize]; omega

/-- The tuples(callback) function of lib/feedback.js, with the per-tuple
callback events collected into a list and the throw recorded. -/
def tuples (fresh buffer : List Nat) (freeIndex : Nat) : List FBEvent × Bool :=
  tuplesFrom fresh buffer 0 freeIndex

/-- The feedBuffer(data) function of lib/feedback.js.  Returns the new
buffer contents, the new freeIndex, the device events emitted while
consuming full buffers, and whether a flush threw (the exception escapes
feedBuffer, so the freeIndex reset and the recursion after the flush do
not happen).  The source recurses forever when the buffer has zero
capacity (bufferSize 0) and the data is non-empty; that unreachable
divergence is cut off by the extra 0 < buffer.length guard on the
recursive flush branch (the Notifier always uses capacity at least 1). -/
def feedBuffer (fresh buffer : List Nat) (freeIndex : Nat) (data : List Nat) :
    List Nat × Nat × List FBEvent × Bool :=
  if _h1 : 0 < buffer.length - freeIndex then
    if _h2 : data.length < buffer.length - freeIndex then
      (writeBytes buffer freeIndex data, freeIndex + data.length, [], false)
    else
      feedBuffer fresh (writeBytes buffer freeIndex (data.take (buffer.length - freeIndex)))
        (freeIndex + (buffer.length - freeIndex)) (data.drop (buffer.length - freeIndex))
  else
    let evs := tuples fresh buffer freeIndex
    if evs.2 then (buffer, freeIndex, evs.1, true)
    else if _h3 : data.length ≠ 0 ∧ 0 < buffer.length then
      let r := feedBuffer fresh buffer 0 data
      (r.1, r.2.1, evs.1 ++ r.2.2.1, r.2.2.2)
    else (buffer, 0, evs.1, false)
termination_by 2 * data.length + (if buffer.length ≤ freeIndex then 1 else 0)
decreasing_by
  · have hw : (writeBytes buffer freeIndex
        (List.take (buffer.length - freeIndex) data)).length = buffer.length := by
      rw [writeBytes_length]
      simp only [List.length_take]
      omega
    simp only [hw, List.length_drop,
      if_pos (show buffer.length ≤ freeIndex + (buffer.length - freeIndex) by omega),
      if_neg (show ¬ buffer.length ≤ freeIndex by omega)]
    omega
  · have hfi : buffer.length ≤ freeIndex := by omega
    have hpos : ¬ buffer.length ≤ 0 := by omega
    simp only [if_neg hpos, if_pos hfi]
    omega

/-- The cleartextStream data handler: each chunk is fed to feedBuffer; an
uncaught throw stops the connection's processing. -/
def runChunks (fresh buffer : List Nat) (freeIndex : Nat) (chunks : List (List Nat)) :
    List Nat × Nat × List FBEvent × Bool :=
  match chunks with
  | [] => (buffer, freeIndex, [], false)
  | c :: cs =>
    let r1 := feedBuffer fresh buffer freeIndex c
    if r1.2.2.2 then (r1.1, r1.2.1, r1.2.2.1, true)
    else
      let r2 := runChunks fresh r1.1 r1.2.1 cs
      (r2.1, r2.2.1, r1.2.2.1 ++ r2.2.2.1, r2.2.2.2)

/-- The cleartextStream end handler: flush any unflushed bytes (a flush
that throws prevents the end event), then emit the terminal end event. -/
def onEnd (fresh buffer : List Nat) (freeIndex : Nat) : List FBEvent × Bool :=
  if 0 < freeIndex then
    let evs := tuples fresh buffer freeIndex
    if evs.2 then (evs.1, true) else (evs.1 ++ [.ended], false)
  else ([.ended], false)

/-- Complete run of a feedback connection: a fresh reader with the given
bufferSize option receives the chunks in order and then the stream ends.
The initial buffer is modelled as zero-filled; its contents beyond
freeIndex are never decoded in the runs below.  The second component is
true when an uncaught copy throw aborted the run (no end event then). -/
def runFeedback (fresh : List Nat) (bufferSize : Nat) (chunks : List (List Nat)) :
    List FBEvent × Bool :=
  let r := runChunks fresh (List.replicate (tupleSize * bufferSize) 0) 0 chunks
  if r.2.2.2 then (r.2.2.1, true)
  else
    let e := onEnd fresh r.1 r.2.1
    (r.2.2.1 ++ e.1, e.2)

/-- A well-formed 38-byte feedback record: 4-byte big-endian timestamp,
2-byte big-endian token length (32 for a well-formed record), 32 token
bytes. -/
def encodeRecord (t : Nat) (tok : List Nat) : List Nat :=
  toBytesBE 4 t ++ toBytesBE 2 tok.length ++ tok

theorem encodeRecord_length (t : Nat) (tok : List Nat) (h : tok.length = 32) :
    (encodeRecord t tok).length = tupleSize := by
  simp [encodeRecord, tupleSize, h]

theorem readUInt16BE_shift4 (t : Nat) (rest : List Nat) :
    readUInt16BE (toBytesBE 4 t ++ rest) 4 = readUInt16BE rest 0 := by
  unfold readUInt16BE
  rw [List.getD_append_right _ _ _ _ (by simp), List.getD_append_right _ _ _ _ (by simp)]
  norm_num

/-- Decoding one well-formed record: the tuple fields read back the record's
timestamp and token. -/
theorem tuple_decode (t : Nat) (tok : List Nat) (ht : t < 2 ^ 32)
    (htok : tok.length = 32) :
    readUInt32BE (encodeRecord t tok) 0 = t ∧
    (encodeRecord t tok).drop 6 = tok ∧
    readUInt16BE (encodeRecord t tok) 4 = 32 := by
  refine ⟨?_, ?_, ?_⟩
  · rw [encodeRecord, List.append_assoc]
    exact readUInt32BE_toBytesBE t _ ht
  · rw [encodeRecord]
    exact List.drop_left' (by simp)
  · rw [encodeRecord, List.append_assoc, readUInt16BE_shift4, htok]
    exact readUInt16BE_toBytesBE 32 tok (by norm_num)

/-! ### Evaluating the copy slip

The lemmas below evaluate a flush of a full buffer: the tuple copied at
i = 0 is the intended record, the tuple copied at i = tupleSize is the
allocation's uninitialized contents, and a copy at any larger offset
throws. -/

theorem copyTuple_zero (fresh buffer : List Nat) (h : tupleSize ≤ buffer.length) :
    copyTuple fresh buffer 0 = some (buffer.take tupleSize) := by
  have hc : (buffer.take tupleSize).length = tupleSize := by
    simp
    omega
  simp only [copyTuple, List.drop_zero, Nat.sub_zero,
    if_neg (show ¬ tupleSize < 0 by omega), hc, Nat.sub_self, List.take_zero,
    List.append_nil]

theorem copyTuple_at_tupleSize (fresh buffer : List Nat) :
    copyTuple fresh buffer tupleSize = some (fresh.take tupleSize) := by
  simp only [copyTuple, if_neg (lt_irrefl tupleSize), Nat.sub_self, List.take_zero,
    List.length_nil, List.drop_zero, Nat.sub_zero, List.nil_append]

theorem copyTuple_none (fresh buffer : List Nat) (i : Nat) (h : tupleSize < i) :
    copyTuple fresh buffer i = none := by
  rw [copyTuple, if_pos h]

theorem tuplesFrom_stop (fresh buffer : List Nat) (i freeIndex : Nat)
    (h : ¬ i < freeIndex) : tuplesFrom fresh buffer i freeIndex = ([], false) := by
  rw [tuplesFrom, dif_neg h]

theorem tuplesFrom_throw (fresh buffer : List Nat) (i freeIndex : Nat)
    (h : i < freeIndex) (hc : copyTuple fresh buffer i = none) :
    tuplesFrom fresh buffer i freeIndex = ([], true) := by
  rw [tuplesFrom, dif_pos h, hc]

theorem tuplesFrom_step (fresh buffer : List Nat) (i freeIndex : Nat)
    (tuple : List Nat) (h : i < freeIndex)
    (hc : copyTuple fresh buffer i = some tuple) :
    tuplesFrom fresh buffer i freeIndex =
      (FBEvent.device (readUInt32BE tuple 0)
          ((tuple.drop 6).take (readUInt16BE tuple 4)) ::
        (tuplesFrom fresh buffer (i + tupleSize) freeIndex).1,
       (tuplesFrom fresh buffer (i + tupleSize) freeIndex).2) := by
  rw [tuplesFrom, dif_pos h, hc]

/-- The device event decoded from a freshly allocated, uninitialized tuple
Buffer: what every flushed tuple after the first carries. -/
def garbageEvent (fresh : List Nat) : FBEvent :=
  .device (readUInt32BE (fresh.take tupleSize) 0)
    (((fresh.take tupleSize).drop 6).take (readUInt16BE (fresh.take tupleSize) 4))

/-- Flushing a full two-record buffer: the first record is decoded, the
second tuple is the allocation's uninitialized contents — record 2's bytes
are never read. -/
theorem tuples_two (fresh : List Nat) (t1 : Nat) (tok1 r2bytes : List Nat)
    (ht1 : t1 < 2 ^ 32) (htok : tok1.length = 32) (hr2 : r2bytes.length = tupleSize) :
    tuples fresh (encodeRecord t1 tok1 ++ r2bytes) (tupleSize * 2) =
      ([FBEvent.device t1 tok1, garbageEvent fresh], false) := by
  have hts : tupleSize = 38 := rfl
  have henc : (encodeRecord t1 tok1).length = tupleSize := encodeRecord_length _ _ htok
  have hchunk : (encodeRecord t1 tok1 ++ r2bytes).length = tupleSize * 2 := by
    simp only [List.length_append, henc, hr2]
    omega
  have hc0 : copyTuple fresh (encodeRecord t1 tok1 ++ r2bytes) 0 =
      some (encodeRecord t1 tok1) := by
    rw [copyTuple_zero fresh _ (by simp only [hchunk, hts]; omega),
      List.take_left' henc]
  have h2 : tuplesFrom fresh (encodeRecord t1 tok1 ++ r2bytes)
      (tupleSize + tupleSize) (tupleSize * 2) = ([], false) :=
    tuplesFrom_stop _ _ _ _ (by omega)
  have h1 : tuplesFrom fresh (encodeRecord t1 tok1 ++ r2bytes) tupleSize
      (tupleSize * 2) = ([garbageEvent fresh], false) := by
    rw [tuplesFrom_step fresh _ tupleSize (tupleSize * 2) (fresh.take tupleSize)
      (by simp only [hts]; omega) (copyTuple_at_tupleSize fresh _), h2]
    rfl
  obtain ⟨hd32, hd6, hd16⟩ := tuple_decode t1 tok1 ht1 htok
  rw [tuples, tuplesFrom_step fresh _ 0 (tupleSize * 2) (encodeRecord t1 tok1)
    (by simp only [hts]; omega) hc0, Nat.zero_add, h1, hd32, hd16, hd6, ← htok,
    List.take_length]

/-- Flushing a full three-record buffer: the copy at offset 2 * tupleSize
throws (sourceEnd < sourceStart) after the first tuple and the garbage
tuple were already emitted. -/
theorem tuples_three_crash (fresh chunk3 : List Nat)
    (hlen : chunk3.length = tupleSize * 3) :
    tuples fresh chunk3 (tupleSize * 3) =
      ([FBEvent.device (readUInt32BE (chunk3.take tupleSize) 0)
          (((chunk3.take tupleSize).drop 6).take
            (readUInt16BE (chunk3.take tupleSize) 4)),
        garbageEvent fresh], true) := by
  have hts : tupleSize = 38 := rfl
  have h2 : tuplesFrom fresh chunk3 (tupleSize + tupleSize) (tupleSize * 3) =
      ([], true) :=
    tuplesFrom_throw _ _ _ _ (by simp only [hts]; omega)
      (copyTuple_none _ _ _ (by simp only [hts]; omega))
  have h1 : tuplesFrom fresh chunk3 tupleSize (tupleSize * 3) =
      ([garbageEvent fresh], true) := by
    rw [tuplesFrom_step fresh chunk3 tupleSize (tupleSize * 3) (fresh.take tupleSize)
      (by simp only [hts]; omega) (copyTuple_at_tupleSize fresh chunk3), h2]
    rfl
  rw [tuples, tuplesFrom_step fresh chunk3 0 (tupleSize * 3) (chunk3.take tupleSize)
    (by simp only [hts]; omega) (copyTuple_zero fresh chunk3 (by simp only [hlen, hts]; omega)),
    Nat.zero_add, h1]

theorem feedBuffer_fill (fresh buffer : List Nat) (freeIndex : Nat) (data : List Nat)
    (h1 : 0 < buffer.length - freeIndex)
    (h2 : ¬ data.length < buffer.length - freeIndex) :
    feedBuffer fresh buffer freeIndex data =
      feedBuffer fresh (writeBytes buffer freeIndex (data.take (buffer.length - freeIndex)))
        (freeIndex + (buffer.length - freeIndex)) (data.drop (buffer.length - freeIndex)) := by
  rw [feedBuffer]
  simp only [dif_pos h1, dif_neg h2]

theorem feedBuffer_flush_nil (fresh buffer : List Nat) (freeIndex : Nat)
    (h1 : ¬ 0 < buffer.length - freeIndex) :
    feedBuffer fresh buffer freeIndex [] =
      if (tuples fresh buffer freeIndex).2 then
        (buffer, freeIndex, (tuples fresh buffer freeIndex).1, true)
      else (buffer, 0, (tuples fresh buffer freeIndex).1, false) := by
  rw [feedBuffer]
  simp only [dif_neg h1, List.length_nil]
  by_cases hcr : (tuples fresh buffer freeIndex).2
  · simp [hcr]
  · simp [hcr]

/-- A single chunk that exactly fills the whole fresh buffer is stored and
then flushed. -/
theorem feedBuffer_full_chunk (fresh chunk : List Nat) (B : Nat)
    (hB : 0 < B) (hlen : chunk.length = B) :
    feedBuffer fresh (List.replicate B 0) 0 chunk =
      if (tuples fresh chunk B).2 then (chunk, B, (tuples fresh chunk B).1, true)
      else (chunk, 0, (tuples fresh chunk B).1, false) := by
  have h1 : 0 < (List.replicate B 0 : List Nat).length - 0 := by
    simp
    omega
  have h2 : ¬ chunk.length < (List.replicate B 0 : List Nat).length - 0 := by
    simp
    omega
  rw [feedBuffer_fill fresh _ 0 chunk h1 h2]
  have hrepl : (List.replicate B 0 : List Nat).length - 0 = chunk.length := by
    simp [hlen]
  have hw : writeBytes (List.replicate B 0) 0
      (chunk.take ((List.replicate B 0 : List Nat).length - 0)) = chunk := by
    rw [hrepl, List.take_length, writeBytes]
    simp [hlen]
  have hfi : 0 + ((List.replicate B 0 : List Nat).length - 0) = B := by
    simp
  have hdta : chunk.drop ((List.replicate B 0 : List Nat).length - 0) = [] := by
    rw [hrepl]
    exact List.drop_length chunk
  rw [hw, hfi, hdta]
  exact feedBuffer_flush_nil fresh chunk B (by omega)

/-! ### Claim C2 -/

/-- C2 is the documented intent but not what the code does.  The comment in
tuples() documents the per-tuple record layout, bufferSize is documented as
the "number of tuples that are cached before being flushed", and the spec
describes a batch flush of all complete records — but the copy's fourth
argument (sourceEnd) is tuple.length instead of i + tuple.length, so for
every capacity of at least 2 records a full-buffer flush reads only the
first record.  Evaluated here for every uninitialized-memory contents
(fresh): at capacity 2, two well-formed records delivered in one 76-byte
chunk produce the first record's device event, then an event decoded from
the uninitialized tuple allocation — the result does not mention r2bytes,
so record 2's bytes are never read; at capacity 3, three records in one
114-byte chunk crash the handler (sourceEnd < sourceStart) and the run
ends with no end event. -/
theorem c2_feedback_copy_bug (fresh : List Nat) (t1 : Nat)
    (tok1 r2bytes chunk3 : List Nat)
    (ht1 : t1 < 2 ^ 32) (htok : tok1.length = 32)
    (hr2 : r2bytes.length = tupleSize) (h3 : chunk3.length = tupleSize * 3) :
    runFeedback fresh 2 [encodeRecord t1 tok1 ++ r2bytes] =
      ([FBEvent.device t1 tok1, garbageEvent fresh, FBEvent.ended], false) ∧
    (runFeedback fresh 3 [chunk3]).2 = true ∧
    FBEvent.ended ∉ (runFeedback fresh 3 [chunk3]).1 := by
  have hts : tupleSize = 38 := rfl
  have henc : (encodeRecord t1 tok1).length = tupleSize := encodeRecord_length _ _ htok
  have hlen2 : (encodeRecord t1 tok1 ++ r2bytes).length = tupleSize * 2 := by
    simp only [List.length_append, henc, hr2]
    omega
  have hfb2 : feedBuffer fresh (List.replicate (tupleSize * 2) 0) 0
      (encodeRecord t1 tok1 ++ r2bytes) =
      (encodeRecord t1 tok1 ++ r2bytes, 0,
        [FBEvent.device t1 tok1, garbageEvent fresh], false) := by
    rw [feedBuffer_full_chunk fresh _ (tupleSize * 2) (by simp only [hts]; omega) hlen2,
      tuples_two fresh t1 tok1 r2bytes ht1 htok hr2]
    simp
  have hfb3 : feedBuffer fresh (List.replicate (tupleSize * 3) 0) 0 chunk3 =
      (chunk3, tupleSize * 3,
        [FBEvent.device (readUInt32BE (chunk3.take tupleSize) 0)
            (((chunk3.take tupleSize).drop 6).take
              (readUInt16BE (chunk3.take tupleSize) 4)),
          garbageEvent fresh], true) := by
    rw [feedBuffer_full_chunk fresh chunk3 (tupleSize * 3) (by simp only [hts]; omega) h3,
      tuples_three_crash fresh chunk3 h3]
    simp
  refine ⟨?_, ?_, ?_⟩
  · simp [runFeedback, runChunks, onEnd, hfb2]
  · simp [runFeedback, runChunks, hfb3]
  · simp [runFeedback, runChunks, hfb3, garbageEvent]

/-- Witness for C2's failing-input evaluation at concrete records and
concrete uninitialized contents. -/
theorem c2_feedback_copy_bug_witness :
    ((5 : Nat) < 2 ^ 32 ∧ (List.replicate 32 7 : List Nat).length = 32 ∧
      (List.replicate 38 3 : List Nat).length = tupleSize ∧
      (List.replicate 114 1 : List Nat).length = tupleSize * 3) ∧
    runFeedback (List.replicate 38 0) 2
        [encodeRecord 5 (List.replicate 32 7) ++ List.replicate 38 3] =
      ([FBEvent.device 5 (List.replicate 32 7), garbageEvent (List.replicate 38 0),
        FBEvent.ended], false) ∧
    (runFeedback (List.replicate 38 0) 3 [List.replicate 114 1]).2 = true :=
  ⟨⟨by decide, by decide, by decide, by decide⟩,
    (c2_feedback_copy_bug (List.replicate 38 0) 5 (List.replicate 32 7)
      (List.replicate 38 3) (List.replicate 114 1) (by decide) (by decide)
      (by decide) (by decide)).1,
    (c2_feedback_copy_bug (List.replicate 38 0) 5 (List.replicate 32 7)
      (List.replicate 38 3) (List.replicate 114 1) (by decide) (by decide)
      (by decide) (by decide)).2.1⟩


/-! ## JSON values (payloads) and JSON.stringify

JavaScript payload objects are modelled as ordered field lists (JS objects
preserve insertion order for the string keys used here).  Arrays and nested
exotic values are not needed by any claim and are omitted from the value
type; alert/sound/badge carry the types the library's typeof checks accept. -/

mutual
inductive JVal where
  | str (s : String)
  | num (n : Int)
  | boolean (b : Bool)
  | null
  | obj (fields : JFields)

inductive JFields where
  | nil
  | cons (key : String) (value : JVal) (rest : JFields)
end

/-- JS property read: object.key, none when the key is absent. -/
def JFields.get : JFields → String → Option JVal
  | .nil, _ => none
  | .cons k v rest, key => if k = key then some v else rest.get key

/-- JS property write: object.key = v keeps the insertion position of an
existing key and appends a fresh key at the end. -/
def JFields.set : JFields → String → JVal → JFields
  | .nil, key, v => .cons key v .nil
  | .cons k w rest, key, v =>
    if k = key then .cons k v rest else .cons k w (rest.set key v)

/-- JavaScript truthiness of a value. -/
def jsTruthy : JVal → Bool
  | .str s => !(s = "")
  | .num n => !(n = 0)
  | .boolean b => b
  | .null => false
  | .obj _ => true

/-- Truthiness of a property that may be absent (undefined is falsy). -/
def jsTruthyOpt : Option JVal → Bool
  | none => false
  | some v => jsTruthy v

/-- JS member read on an arbitrary value: undefined on primitives. -/
def JVal.getField : JVal → String → Option JVal
  | .obj fs, key => fs.get key
  | _, _ => none

/-- JS member write on an arbitrary value: a silent no-op on primitives in
non-strict mode, an ordered update on objects. -/
def JVal.setField : JVal → String → JVal → JVal
  | .obj fs, key, w => .obj (fs.set key w)
  | other, _, _ => other

def hexDigitChar (n : Nat) : Char :=
  if n < 10 then Char.ofNat (48 + n) else Char.ofNat (87 + n)

/-- JSON string escaping as performed by JSON.stringify. -/
def jsonEscapeChar (c : Char) : String :=
  if c = Char.ofNat 34 then "\\\""
  else if c = Char.ofNat 92 then "\\\\"
  else if c = Char.ofNat 8 then "\\b"
  else if c = Char.ofNat 9 then "\\t"
  else if c = Char.ofNat 10 then "\\n"
  else if c = Char.ofNat 12 then "\\f"
  else if c = Char.ofNat 13 then "\\r"
  else if c.toNat < 32 then
    String.mk ['\\', 'u', '0', '0', hexDigitChar (c.toNat / 16), hexDigitChar (c.toNat % 16)]
  else String.mk [c]

def jsonEscape (s : String) : String :=
  String.join (s.data.map jsonEscapeChar)

mutual
/-- JSON.stringify on the modelled values. -/
def jsonStringify : JVal → String
  | .str s => "\"" ++ jsonEscape s ++ "\""
  | .num n => toString n
  | .boolean b => if b then "true" else "false"
  | .null => "null"
  | .obj fs => "\x7b" ++ jsonStringifyFields fs ++ "\x7d"

/-- Comma-separated key:value items of an object body. -/
def jsonStringifyFields : JFields → String
  | .nil => ""
  | .cons k v .nil => "\"" ++ jsonEscape k ++ "\":" ++ jsonStringify v
  | .cons k v (.cons k2 v2 rest) =>
    "\"" ++ jsonEscape k ++ "\":" ++ jsonStringify v ++ "," ++
      jsonStringifyFields (.cons k2 v2 rest)
end

/-- UTF-8 encoding of one character. -/
def utf8CharBytes (c : Char) : List Nat :=
  let n := c.toNat
  if n < 128 then [n]
  else if n < 2048 then [192 + n / 64, 128 + n % 64]
  else if n < 65536 then [224 + n / 4096, 128 + n / 64 % 64, 128 + n % 64]
  else [240 + n / 262144, 128 + n / 4096 % 64, 128 + n / 64 % 64, 128 + n % 64]

/-- UTF-8 bytes of a string, as Buffer.write(string, ..., "utf8") produces. -/
def utf8Bytes (s : String) : List Nat :=
  (s.data.map utf8CharBytes).flatten

/-- Buffer.byteLength(string, "utf8"). -/
def byteLength (s : String) : Nat :=
  (utf8Bytes s).length

/-! ## Device tokens (lib/device.js) -/

structure Device where
  token : String

def hexDigitVal? (c : Char) : Option Nat :=
  if 48 ≤ c.toNat ∧ c.toNat ≤ 57 then some (c.toNat - 48)
  else if 97 ≤ c.toNat ∧ c.toNat ≤ 102 then some (c.toNat - 87)
  else if 65 ≤ c.toNat ∧ c.toNat ≤ 70 then some (c.toNat - 55)
  else none

/-- One byte of old-node Buffer hex decoding: parseInt(two chars, 16), which
fails only when the first character is not a hex digit; a non-hex second
character is dropped (parseInt keeps the longest valid prefix). -/
def hexPairVal? (c1 c2 : Char) : Option Nat :=
  match hexDigitVal? c1 with
  | none => none
  | some v1 =>
    match hexDigitVal? c2 with
    | some v2 => some (16 * v1 + v2)
    | none => some v1

/-- Buffer(string, "hex") of the node era the library targets: throws on an
odd-length string, else decodes pairwise with hexPairVal?. -/
def hexDecodeChars : List Char → Option (List Nat)
  | [] => some []
  | [_] => none
  | c1 :: c2 :: rest =>
    match hexPairVal? c1 c2, hexDecodeChars rest with
    | some b, some bs => some (b :: bs)
    | _, _ => none

/-- Device.prototype.toNetwork: Buffer(token with whitespace stripped,
"hex"); none models the throw. -/
def Device.toNetwork (d : Device) : Option (List Nat) :=
  hexDecodeChars (d.token.data.filter (fun c => !c.isWhitespace))

/-- Device.prototype.isValid: toNetwork does not throw. -/
def Device.isValid (d : Device) : Bool :=
  d.toNetwork.isSome

/-! ## Notifications (lib/notification.js) -/

/-- A Notification.  device is optional (the constructor leaves it unset when
no token is given); alert/sound/badge model the typed override fields the
typeof checks of normalizedPayload accept; identifier is the sequence number,
absent until assigned by the push channel. -/
structure Notification where
  device : Option Device := none
  payload : JFields := .nil
  alert : Option String := none
  sound : Option String := none
  badge : Option Int := none
  expiry : Nat := 0
  identifier : Option Nat := none

/-- Notification.prototype.normalizedPayload: shallow-copy the payload,
substitute an empty object for a missing or falsy aps property, then assign
aps.alert / aps.sound / aps.badge for the override fields that are present
(assignment through a truthy primitive aps is a silent no-op, which
JVal.setField reproduces). -/
def Notification.normalizedPayload (n : Notification) : JFields :=
  let normalized := n.payload
  let normalized := if jsTruthyOpt (normalized.get "aps") then normalized
    else normalized.set "aps" (.obj .nil)
  let normalized := match n.alert with
    | some a => normalized.set "aps"
        (((normalized.get "aps").getD .null).setField "alert" (.str a))
    | none => normalized
  let normalized := match n.sound with
    | some a => normalized.set "aps"
        (((normalized.get "aps").getD .null).setField "sound" (.str a))
    | none => normalized
  let normalized := match n.badge with
    | some b => normalized.set "aps"
        (((normalized.get "aps").getD .null).setField "badge" (.num b))
    | none => normalized
  normalized

/-- Notification.prototype.payloadString. -/
def Notification.payloadString (n : Notification) : String :=
  jsonStringify (.obj n.normalizedPayload)

/-- Notification.prototype.isValid: a device whose token decodes, a
serialized normalized payload of at most 256 bytes, and a truthy
aps.alert, aps.sound or aps.badge. -/
def Notification.isValid (n : Notification) : Bool :=
  match n.device with
  | none => false
  | some d =>
    if !d.isValid then false
    else
      let normalized := n.normalizedPayload
      if 256 < byteLength (jsonStringify (.obj normalized)) then false
      else
        let aps := (normalized.get "aps").getD .null
        if !(jsTruthyOpt (aps.getField "alert") || jsTruthyOpt (aps.getField "sound") ||
            jsTruthyOpt (aps.getField "badge")) then false
        else true

/-- Notification.prototype.toNetwork (lib/notification.js): the extended
frame when an identifier is assigned, the simple frame otherwise.  none
models the TypeError / invalid-hex throw paths (no device, undecodable
token).  Node's writeUIntBE throws on out-of-range values where toBytesBE
reduces modulo the width; the claims keep every written value in range. -/
def Notification.toNetwork (n : Notification) : Option (List Nat) :=
  match n.device with
  | none => none
  | some d =>
    match d.toNetwork with
    | none => none
    | some token =>
      let payload := utf8Bytes n.payloadString
      match n.identifier with
      | some id =>
        some (toBytesBE 1 1 ++ toBytesBE 4 id ++ toBytesBE 4 n.expiry ++
          toBytesBE 2 token.length ++ token ++ toBytesBE 2 payload.length ++ payload)
      | none =>
        some (toBytesBE 1 0 ++ toBytesBE 2 token.length ++ token ++
          toBytesBE 2 payload.length ++ payload)

/-! ## Wire-frame decoding (modelled from the spec) -/

/-- A decoded outbound frame. -/
inductive Frame where
  | simple (token payload : List Nat)
  | extended (sequenceNumber expiry : Nat) (token payload : List Nat)
deriving DecidableEq, Repr

/-- Token/payload part shared by both frame layouts:
[2:tokenLen][tokenLen:token][2:payloadLen][payloadLen:payload], consuming
the whole input. -/
def decodeBody (rest : List Nat) : Option (List Nat × List Nat) :=
  if 2 ≤ rest.length then
    let tokenLength := readUInt16BE rest 0
    let afterTok := rest.drop 2
    if tokenLength ≤ afterTok.length then
      let rest2 := afterTok.drop tokenLength
      if 2 ≤ rest2.length then
        let payloadLength := readUInt16BE rest2 0
        if rest2.length = 2 + payloadLength then
          some (afterTok.take tokenLength, (rest2.drop 2).take payloadLength)
        else none
      else none
    else none
  else none

/-- Modelled from the spec: the repository has no decoder for outbound
frames (its section 6 gives only the layout), so this decoder follows the
spec's words: format byte 0 for the simple frame, 1 for the extended frame
followed by the 4-byte big-endian sequence number and expiry, then the
token/payload body. -/
def decodeFrame (bytes : List Nat) : Option Frame :=
  match bytes with
  | 0 :: rest => (decodeBody rest).map (fun p => .simple p.1 p.2)
  | 1 :: rest =>
    if 8 ≤ rest.length then
      (decodeBody (rest.drop 8)).map
        (fun p => .extended (readUInt32BE rest 0) (readUInt32BE rest 4) p.1 p.2)
    else none
  | _ => none

theorem readUInt32BE_shift4 (t : Nat) (rest : List Nat) :
    readUInt32BE (toBytesBE 4 t ++ rest) 4 = readUInt32BE rest 0 := by
  unfold readUInt32BE
  rw [List.getD_append_right _ _ _ _ (by simp), List.getD_append_right _ _ _ _ (by simp),
    List.getD_append_right _ _ _ _ (by simp), List.getD_append_right _ _ _ _ (by simp)]
  norm_num

theorem decodeBody_roundtrip (token payload : List Nat)
    (htok : token.length < 2 ^ 16) (hpay : payload.length < 2 ^ 16) :
    decodeBody (toBytesBE 2 token.length ++ token ++
      toBytesBE 2 payload.length ++ payload) = some (token, payload) := by
  have h16t := readUInt16BE_toBytesBE token.length
    (token ++ toBytesBE 2 payload.length ++ payload) htok
  have h16p := readUInt16BE_toBytesBE payload.length payload hpay
  rw [decodeBody]
  rw [List.append_assoc, List.append_assoc] at *
  rw [if_pos (by simp)]
  simp only [h16t]
  rw [List.drop_left' (by simp)]
  rw [if_pos (by simp)]
  rw [List.take_left' rfl, List.drop_left' rfl]
  simp only [h16p]
  rw [if_pos (by simp), if_pos (by simp), List.drop_left' (by simp),
    List.take_length]

/-- C7: encoding a valid notification with an assigned sequence number u and
expiry e produces exactly the extended frame
[1][4:u][4:e][2:tokenLen][token][2:payloadLen][payload] (big-endian), and
decoding those bytes recovers the token, payload, sequence number and
expiry; with no sequence number assigned, encoding produces the simple
frame with leading byte 0 and no sequence-number or expiry fields, which
decodes accordingly.  The decoder is modelled from the spec (section 6). -/
theorem c7_roundtrip (n : Notification) (d : Device) (token : List Nat)
    (u e : Nat)
    (hdev : n.device = some d) (htok : d.toNetwork = some token)
    (htlen : token.length < 2 ^ 16)
    (hplen : (utf8Bytes n.payloadString).length < 2 ^ 16)
    (hu : u < 2 ^ 32) (he : e < 2 ^ 32) :
    (({ n with identifier := some u, expiry := e } : Notification).toNetwork =
      some ([1] ++ toBytesBE 4 u ++ toBytesBE 4 e ++
        toBytesBE 2 token.length ++ token ++
        toBytesBE 2 (utf8Bytes n.payloadString).length ++ utf8Bytes n.payloadString) ∧
     decodeFrame ([1] ++ toBytesBE 4 u ++ toBytesBE 4 e ++
        toBytesBE 2 token.length ++ token ++
        toBytesBE 2 (utf8Bytes n.payloadString).length ++ utf8Bytes n.payloadString) =
      some (.extended u e token (utf8Bytes n.payloadString))) ∧
    (({ n with identifier := none } : Notification).toNetwork =
      some ([0] ++ toBytesBE 2 token.length ++ token ++
        toBytesBE 2 (utf8Bytes n.payloadString).length ++ utf8Bytes n.payloadString) ∧
     decodeFrame ([0] ++ toBytesBE 2 token.length ++ token ++
        toBytesBE 2 (utf8Bytes n.payloadString).length ++ utf8Bytes n.payloadString) =
      some (.simple token (utf8Bytes n.payloadString))) := by
  have hbody := decodeBody_roundtrip token (utf8Bytes n.payloadString) htlen hplen
  have hpse : ({ n with identifier := some u, expiry := e } : Notification).payloadString =
      n.payloadString := rfl
  have hpss : ({ n with identifier := none } : Notification).payloadString =
      n.payloadString := rfl
  refine ⟨⟨?_, ?_⟩, ⟨?_, ?_⟩⟩
  · simp only [Notification.toNetwork, hdev, htok, hpse]
    rfl
  · have hshape : [1] ++ toBytesBE 4 u ++ toBytesBE 4 e ++
        toBytesBE 2 token.length ++ token ++
        toBytesBE 2 (utf8Bytes n.payloadString).length ++ utf8Bytes n.payloadString =
        1 :: (toBytesBE 4 u ++ (toBytesBE 4 e ++
          (toBytesBE 2 token.length ++ token ++
            toBytesBE 2 (utf8Bytes n.payloadString).length ++
              utf8Bytes n.payloadString))) := by
      simp [List.append_assoc]
    rw [hshape, decodeFrame]
    have hlen8 : 8 ≤ (toBytesBE 4 u ++ (toBytesBE 4 e ++
        (toBytesBE 2 token.length ++ token ++
          toBytesBE 2 (utf8Bytes n.payloadString).length ++
            utf8Bytes n.payloadString))).length := by
      simp
      omega
    rw [if_pos hlen8]
    have hdrop : (toBytesBE 4 u ++ (toBytesBE 4 e ++
        (toBytesBE 2 token.length ++ token ++
          toBytesBE 2 (utf8Bytes n.payloadString).length ++
            utf8Bytes n.payloadString))).drop 8 =
        toBytesBE 2 token.length ++ token ++
          toBytesBE 2 (utf8Bytes n.payloadString).length ++ utf8Bytes n.payloadString := by
      rw [show toBytesBE 4 u ++ (toBytesBE 4 e ++
          (toBytesBE 2 token.length ++ token ++
            toBytesBE 2 (utf8Bytes n.payloadString).length ++
              utf8Bytes n.payloadString)) =
          (toBytesBE 4 u ++ toBytesBE 4 e) ++
            (toBytesBE 2 token.length ++ token ++
              toBytesBE 2 (utf8Bytes n.payloadString).length ++
                utf8Bytes n.payloadString) by simp [List.append_assoc]]
      exact List.drop_left' (by simp)
    rw [hdrop, hbody]
    have hr0 : readUInt32BE (toBytesBE 4 u ++ (toBytesBE 4 e ++
        (toBytesBE 2 token.length ++ token ++
          toBytesBE 2 (utf8Bytes n.payloadString).length ++
            utf8Bytes n.payloadString))) 0 = u :=
      readUInt32BE_toBytesBE u _ hu
    have hr4 : readUInt32BE (toBytesBE 4 u ++ (toBytesBE 4 e ++
        (toBytesBE 2 token.length ++ token ++
          toBytesBE 2 (utf8Bytes n.payloadString).length ++
            utf8Bytes n.payloadString))) 4 = e := by
      rw [readUInt32BE_shift4]
      exact readUInt32BE_toBytesBE e _ he
    rw [hr0, hr4]
    rfl
  · simp only [Notification.toNetwork, hdev, htok, hpss]
    rfl
  · have hshape : [0] ++ toBytesBE 2 token.length ++ token ++
        toBytesBE 2 (utf8Bytes n.payloadString).length ++ utf8Bytes n.payloadString =
        0 :: (toBytesBE 2 token.length ++ token ++
          toBytesBE 2 (utf8Bytes n.payloadString).length ++ utf8Bytes n.payloadString) := by
      simp [List.append_assoc]
    rw [hshape, decodeFrame, hbody]
    rfl

/-- Witness for C7 at a concrete notification (token "ab", alert "hi",
sequence number 3, expiry 0). -/
theorem c7_roundtrip_witness :
    ({ device := some (Device.mk "ab"), alert := some "hi", identifier := some 3,
        expiry := 0 } : Notification).toNetwork =
      some ([1] ++ toBytesBE 4 3 ++ toBytesBE 4 0 ++
        toBytesBE 2 ([171] : List Nat).length ++ [171] ++
        toBytesBE 2 (utf8Bytes
          ({ device := some (Device.mk "ab"),
             alert := some "hi" } : Notification).payloadString).length ++
        utf8Bytes ({ device := some (Device.mk "ab"),
                     alert := some "hi" } : Notification).payloadString) :=
  (c7_roundtrip { device := some (Device.mk "ab"), alert := some "hi" }
    (Device.mk "ab") [171] 3 0 rfl rfl (by decide) (by decide) (by decide)
    (by decide)).1.1

/-! ## The Notifier (lib/services.js)

The in-flight table `notifications` is a JS object keyed by the numeric
uid; for-in enumerates such integer-like keys in ascending numeric order,
and the Notifier only ever inserts strictly increasing uids, so the table
is modelled as an association list whose list order is the iteration
order.  Theorems that speak about that order carry the sorted-keys
invariant of reachable states as a hypothesis. -/

/-- One entry of notifier.elogs: [date, error, notification-or-null,
description].  The wall-clock date is dropped (nothing observes it); the
error slot holds the string form of what the source stores there. -/
structure ELogEntry where
  error : String
  notification : Option Notification
  description : Option String

/-- APNS.errors from lib/constants.js (string keys, as JS object keys are). -/
def APNSerrors : String → Option String
  | "0" => some "No errors encountered"
  | "1" => some "Processing error"
  | "2" => some "Missing device token"
  | "3" => some "Missing topic"
  | "4" => some "Missing payload"
  | "5" => some "Invalid token size"
  | "6" => some "Invalid topic size"
  | "7" => some "Invalid payload size"
  | "8" => some "Invalid token"
  | "255" => some "None (unknown)"
  | _ => none

/-- A JavaScript primitive, used to model the source's strict-equality test
between the string errorCode and the number 8. -/
inductive JSPrim where
  | str (s : String)
  | num (n : Int)

/-- JavaScript strict equality on primitives: operands of different types
are never strictly equal. -/
def jsStrictEq : JSPrim → JSPrim → Bool
  | .str a, .str b => a = b
  | .num a, .num b => a = b
  | _, _ => false

/-- The closure state of one Notifier instance.  Timers are modelled by
booleans recording whether they are scheduled: consumer is the rescheduled
dispatch timer that suspend() clears; graceScheduled records a pending
anonymous grace timer, which nothing ever clears.  pushUid is the uid
counter of the enhanced push channel the Notifier creates. -/
structure NotifierState where
  pending : List Notification := []
  notifications : List (Nat × Notification) := []
  cansend : Bool := false
  elogs : List ELogEntry := []
  blacklist : List String := []
  consumer : Bool := false
  graceScheduled : Bool := false
  pushUid : Nat := 0
  elogsMaxCount : Nat := 100

/-- A recorded completion-handler invocation: the notification whose
handler runs and the error argument it receives (none is the null success
argument).  The source only invokes the handler when one was registered;
the model records the invocation unconditionally. -/
abbrev CallbackCall := Notification × Option String

/-- suspend(): cansend = false and clearTimeout(consumer): only the
consumer timer is cleared. -/
def suspendOp (st : NotifierState) : NotifierState :=
  { st with cansend := false, consumer := false }

/-- restart(): cansend = true; the dispatch pass it schedules on the next
tick is modelled by explicitly applying consume. -/
def restartOp (st : NotifierState) : NotifierState :=
  { st with cansend := true }

/-- The public suspended() accessor of the Notifier: return !!cansend. -/
def NotifierState.suspended (st : NotifierState) : Bool :=
  st.cansend

/-- notify(notification, callback): reject blacklisted tokens and invalid
notifications (returning false after invoking the handler with an error),
otherwise append to pending and schedule a dispatch pass (return true).
none models the TypeError the source hits reading
blacklist[notification.device.token] when the notification has no device. -/
def notify (st : NotifierState) (n : Notification) :
    Option (Bool × NotifierState × List CallbackCall) :=
  match n.device with
  | none => none
  | some d =>
    if st.blacklist.contains d.token then
      some (false, st, [(n, some "blacklisted")])
    else if !n.isValid then
      some (false, st, [(n, some "invalid")])
    else
      some (true, { st with pending := st.pending ++ [n] }, [])

/-- cleanupAfterErrorOnNotification(uid): iterate the in-flight table in
iteration order; each entry with identifier > uid is pushed onto the back
of pending, every other entry has its completion handler invoked with
null; every entry is deleted.  Returns the requeued notifications and the
handler invocations, each in iteration order. -/
def cleanupAfterErrorOnNotification (uid : Int) :
    List (Nat × Notification) → List Notification × List CallbackCall
  | [] => ([], [])
  | (k, n) :: rest =>
    let r := cleanupAfterErrorOnNotification uid rest
    if uid < (k : Int) then (n :: r.1, r.2) else (r.1, (n, none) :: r.2)

/-- JS object read notifications[uid]. -/
def lookupUid (table : List (Nat × Notification)) (uid : Nat) : Option Notification :=
  (table.find? (fun p => p.1 = uid)).map (fun p => p.2)

/-- JS delete notifications[uid]. -/
def removeUid (table : List (Nat × Notification)) (uid : Nat) :
    List (Nat × Notification) :=
  table.filter (fun p => !(p.1 = uid))

/-- blacklist[token] = date (the date value is dropped). -/
def blacklistAdd (bl : List String) (token : String) : List String :=
  if bl.contains token then bl else bl ++ [token]

/-- The push.on('notificationError') handler.  error arrives as the string
data[1].toString() emitted by the push channel; the source's error === 8
test is a strict equality between that string and the number 8, which is
never true, so the blacklist branch is dead.  none models the TypeError the
source hits on notifications[uid].callback when uid is not in the table
(the elog entry pushed just before the crash is not observable then). -/
def onNotificationError (st : NotifierState) (error : String) (uid : Nat) :
    Option (NotifierState × List CallbackCall) :=
  let entry := lookupUid st.notifications uid
  let st1 := { st with elogs := st.elogs ++ [ELogEntry.mk error entry (APNSerrors error)] }
  let st2 :=
    if jsStrictEq (.str error) (.num 8) then
      match entry with
      | some n =>
        match n.device with
        | some d => { st1 with blacklist := blacklistAdd st1.blacklist d.token }
        | none => st1
      | none => st1
    else st1
  match entry with
  | none => none
  | some n =>
    let table := removeUid st2.notifications uid
    let r := cleanupAfterErrorOnNotification (uid : Int) table
    some ({ st2 with notifications := [], pending := st2.pending ++ r.1 },
      (n, some error) :: r.2)

/-- Push-channel events the Notifier consumes. -/
inductive PushEvent where
  | notificationError (error : String) (uid : Nat)
deriving DecidableEq, Repr

/-- The cleartextStream data handler of lib/push.js: a chunk whose first
byte is 8 is decoded as an error record and re-emitted as
notificationError(data[1].toString(), data.readUInt32BE(2)). -/
def pushOnData (data : List Nat) : List PushEvent :=
  if data.getD 0 0 == 8 then
    [.notificationError (toString (data.getD 1 0)) (readUInt32BE data 2)]
  else []

/-- The push.on('error') handler: push an elog entry, requeue everything
(cleanup with uid -1, which every table key exceeds), then self.suspend(). -/
def onPushError (st : NotifierState) (error : String) :
    NotifierState × List CallbackCall :=
  let st1 := { st with elogs := st.elogs ++ [ELogEntry.mk error none (APNSerrors error)] }
  let r := cleanupAfterErrorOnNotification (-1) st1.notifications
  (suspendOp { st1 with notifications := [], pending := st1.pending ++ r.1 }, r.2)

/-- The push.on('close') handler: push an elog entry and requeue everything;
unlike the error handler it does not call suspend(). -/
def onPushClose (st : NotifierState) : NotifierState × List CallbackCall :=
  let st1 := { st with elogs := st.elogs ++ [ELogEntry.mk "closed" none none] }
  let r := cleanupAfterErrorOnNotification (-1) st1.notifications
  ({ st1 with notifications := [], pending := st1.pending ++ r.1 }, r.2)

/-- The while loop of consume(): drain pending while cansend (cansend does
not change inside the loop), assign each notification the channel's next
uid (the Notifier's channel runs in enhanced mode) and record it in the
in-flight table. -/
def consumeLoop : Nat → List Notification → List (Nat × Notification) →
    Nat × List (Nat × Notification)
  | uidc, [], table => (uidc, table)
  | uidc, n :: rest, table =>
    consumeLoop (uidc + 1) rest (table ++ [(uidc, { n with identifier := some uidc })])

/-- The elogs cleanup loop of consume(): shift until at most elogsMaxCount
entries remain. -/
def trimElogs (l : List ELogEntry) (maxCount : Nat) : List ELogEntry :=
  l.drop (l.length - maxCount)

/-- consume(): clear the consumer timer, drain the pending queue while
cansend, and if at least one notification went out and none remain pending,
set cansend = false and start the one-shot grace timer; finally trim the
event log and reschedule the consumer timer. -/
def consume (st : NotifierState) : NotifierState :=
  let st0 := { st with consumer := false }
  let st1 :=
    if st0.cansend ∧ st0.pending.length ≠ 0 then
      let r := consumeLoop st0.pushUid st0.pending st0.notifications
      { st0 with
          pending := [], pushUid := r.1, notifications := r.2,
          cansend := false, graceScheduled := true }
    else st0
  { st1 with elogs := trimElogs st1.elogs st1.elogsMaxCount, consumer := true }

/-- The grace-timer body scheduled by consume(): invoke every in-flight
notification's completion handler with null, clear the table, and set
cansend = true.  This transition applies when the timer is pending
(graceScheduled true), which suspend() never resets. -/
def graceFire (st : NotifierState) : NotifierState × List CallbackCall :=
  ({ st with notifications := [], cansend := true, graceScheduled := false },
    st.notifications.map (fun p => (p.2, none)))

/-- Outcome of the startup feedback query as seen by the callback the
Notifier registers: the end handler calls callback(), the clientError and
error handlers call callback(error). -/
inductive FeedbackOutcome where
  | ended
  | clientErrored (e : String)
  | errored (e : String)

def feedbackCallbackArg : FeedbackOutcome → Option String
  | .ended => none
  | .clientErrored e => some e
  | .errored e => some e

/-- The fb.on('device') handler of notifier.feedback(): blacklist the
token. -/
def feedbackDevice (st : NotifierState) (token : String) : NotifierState :=
  { st with blacklist := blacklistAdd st.blacklist token }

/-- The startup callback at the bottom of the Notifier constructor: when the
feedback query reports an error it logs "Startup Failed!" and returns,
without restart(); on success it calls restart(). -/
def startupCallback (st : NotifierState) (err : Option String) : NotifierState :=
  if err.isSome then st else restartOp st

/-- The startup feedback query on a fresh notifier state: the received
device events, then the terminal outcome. -/
def startup (devices : List String) (o : FeedbackOutcome) : NotifierState :=
  startupCallback (devices.foldl feedbackDevice {}) (feedbackCallbackArg o)

/-! ## Push-channel sequence numbering (lib/push.js) -/

/-- Connection-independent state of a Push channel: the uid counter and the
enhanced-format option.  sendNotification assigns
notification.identifier = nextUID() (uid++) when enhanced, before any
connection or buffering handling, so numbering does not depend on the
transport. -/
structure PushState where
  uid : Nat := 0
  enhanced : Bool := true

/-- sendNotification on an accepted call (one whose argument passed the
instanceof Notification check; a non-Notification argument returns false
untouched and is not an accepted send). -/
def sendNotification (ps : PushState) (n : Notification) : PushState × Notification :=
  if ps.enhanced then
    ({ ps with uid := ps.uid + 1 }, { n with identifier := some ps.uid })
  else (ps, n)

/-- A sequence of accepted sends on one channel instance. -/
def sendAll (ps : PushState) : List Notification → PushState × List Notification
  | [] => (ps, [])
  | n :: rest =>
    let r := sendNotification ps n
    let rr := sendAll r.1 rest
    (rr.1, r.2 :: rr.2)

/-! ## Shared characterisations of the cleanup pass -/

/-- cleanupAfterErrorOnNotification splits the table: identifiers above uid
are requeued, the rest get success callbacks, both in table order. -/
theorem cleanup_eq (uid : Int) (table : List (Nat × Notification)) :
    cleanupAfterErrorOnNotification uid table =
      ((table.filter (fun p => decide (uid < (p.1 : Int)))).map (fun p => p.2),
       (table.filter (fun p => !decide (uid < (p.1 : Int)))).map
         (fun p => (p.2, none))) := by
  induction table with
  | nil => rfl
  | cons p rest ih =>
    rw [cleanupAfterErrorOnNotification]
    by_cases h : uid < (p.1 : Int)
    · simp [ih, h]
    · simp [ih, h]

/-- With uid -1 every table key qualifies for requeue and no callback runs. -/
theorem cleanup_neg1 (table : List (Nat × Notification)) :
    cleanupAfterErrorOnNotification (-1) table =
      (table.map (fun p => p.2), []) := by
  rw [cleanup_eq]
  have hall : ∀ p ∈ table, decide ((-1 : Int) < (p.1 : Int)) = true := by
    intro p _
    simp
    omega
  have hnil : ∀ p ∈ table, ¬ (!decide ((-1 : Int) < (p.1 : Int))) = true := by
    intro p hp
    rw [hall p hp]
    simp
  rw [List.filter_eq_self.mpr hall, List.filter_eq_nil_iff.mpr hnil]
  rfl

/-! ## Claim C9 -/

/-- C9: the public suspended() accessor returns the internal send-enabled
flag itself — true exactly when dispatch is enabled, false immediately
after suspend(), true immediately after restart(): the inverse of what its
name suggests. -/
theorem c9_suspended_accessor (st : NotifierState) :
    st.suspended = st.cansend ∧ (suspendOp st).suspended = false ∧
      (restartOp st).suspended = true :=
  ⟨rfl, rfl, rfl⟩

/-! ## Claim C4 -/

/-- C4 as stated is false on the code: a startup feedback query that fails
(error or clientError) leaves dispatch disabled. -/
theorem c4_counterexample :
    (startup [] (.errored "boom")).cansend = false ∧
      (startup [] (.clientErrored "boom")).cansend = false :=
  ⟨rfl, rfl⟩

/-- C4 amended: dispatch is enabled after the startup feedback query only
when the query completes normally with end; when it fails with error or
clientError the startup callback returns without restart() and the notifier
stays unable to dispatch (until an external restart()). -/
theorem c4_amended (devices : List String) (e : String) :
    (startup devices .ended).cansend = true ∧
    (startup devices (.errored e)).cansend = false ∧
    (startup devices (.clientErrored e)).cansend = false := by
  have hfold : ∀ (l : List String) (st : NotifierState),
      (l.foldl feedbackDevice st).cansend = st.cansend := by
    intro l
    induction l with
    | nil => intro st; rfl
    | cons a l ih =>
      intro st
      rw [List.foldl_cons]
      exact ih _
  refine ⟨rfl, ?_, ?_⟩
  · show (startupCallback (devices.foldl feedbackDevice {}) (some e)).cansend = false
    rw [startupCallback, if_pos (by simp), hfold]
  · show (startupCallback (devices.foldl feedbackDevice {}) (some e)).cansend = false
    rw [startupCallback, if_pos (by simp), hfold]

/-! ## Claim C8 -/

/-- C8: on an enhanced (extended-format) channel instance, the i-th accepted
send assigns sequence number i — the number of previously accepted sends —
so the assigned numbers are exactly 0, 1, 2, ..., strictly increasing, and
the counter advances once per send; on a non-extended channel no sequence
number is assigned (identifiers are untouched) and the counter stays put. -/
theorem c8_sequence_numbers (ns : List Notification) :
    ((sendAll { uid := 0, enhanced := true } ns).2.map (fun n => n.identifier) =
        (List.range ns.length).map some ∧
      (sendAll { uid := 0, enhanced := true } ns).1.uid = ns.length) ∧
    ∀ u : Nat,
      (sendAll { uid := u, enhanced := false } ns).2.map (fun n => n.identifier) =
        ns.map (fun n => n.identifier) ∧
      (sendAll { uid := u, enhanced := false } ns).1.uid = u := by
  constructor
  · have hgen : ∀ (ns : List Notification) (k : Nat),
        (sendAll { uid := k, enhanced := true } ns).2.map (fun n => n.identifier) =
          (List.range' k ns.length).map some ∧
        (sendAll { uid := k, enhanced := true } ns).1.uid = k + ns.length := by
      intro ns
      induction ns with
      | nil => intro k; exact ⟨rfl, rfl⟩
      | cons n rest ih =>
        intro k
        obtain ⟨ih1, ih2⟩ := ih (k + 1)
        rw [sendAll, sendNotification, if_pos rfl]
        constructor
        · simp only [List.map_cons, List.length_cons, List.range']
          rw [ih1]
        · rw [ih2]
          simp
          omega
    obtain ⟨h1, h2⟩ := hgen ns 0
    rw [List.range_eq_range']
    exact ⟨h1, by rw [h2]; omega⟩
  · intro u
    induction ns with
    | nil => exact ⟨rfl, rfl⟩
    | cons n rest ih =>
      obtain ⟨ih1, ih2⟩ := ih
      rw [sendAll, sendNotification, if_neg (by simp)]
      exact ⟨by simp only [List.map_cons]; rw [ih1], ih2⟩

/-! ## Claim C10 -/

/-- C10: suspend() clears only the recurring consumer timer and never a
pending grace timer.  After a consume pass that sent at least one
notification and drained the queue (scheduling the grace timer), calling
suspend() leaves the grace timer scheduled; when it fires it invokes every
in-flight notification's completion handler with no error, clears the
in-flight table, and sets the send-enabled flag back to true — un-suspending
the notifier without any restart() call. -/
theorem c10_grace_timer (st : NotifierState) (hsend : st.cansend = true)
    (hpend : st.pending.length ≠ 0) :
    (suspendOp (consume st)).graceScheduled = true ∧
    (suspendOp (consume st)).graceScheduled = (consume st).graceScheduled ∧
    (suspendOp (consume st)).consumer = false ∧
    (graceFire (suspendOp (consume st))).1.cansend = true ∧
    (graceFire (suspendOp (consume st))).1.notifications = [] ∧
    (graceFire (suspendOp (consume st))).2 =
      (consume st).notifications.map (fun p => (p.2, none)) := by
  have hc : (consume st).graceScheduled = true := by
    rw [consume]
    simp [hsend, hpend]
  refine ⟨?_, ?_, rfl, rfl, rfl, rfl⟩
  · show (consume st).graceScheduled = true
    exact hc
  · rfl

/-- Witness for C10: a suspended-then-fired grace timer on a one-notification
queue re-enables sending. -/
theorem c10_grace_timer_witness :
    (({ pending := [{}], cansend := true } : NotifierState).cansend = true ∧
      ({ pending := [{}], cansend := true } : NotifierState).pending.length ≠ 0) ∧
    ((graceFire (suspendOp (consume { pending := [{}], cansend := true }))).1.cansend = true ∧
      (suspendOp (consume { pending := [{}], cansend := true })).graceScheduled = true) :=
  ⟨⟨rfl, by decide⟩,
    (c10_grace_timer { pending := [{}], cansend := true } rfl (by decide)).2.2.2.1,
    (c10_grace_timer { pending := [{}], cansend := true } rfl (by decide)).1⟩

/-! ## Claim C5 -/

/-- C5 as stated is false on the code: the close handler never calls
suspend(), so a connection-level close leaves the send-enabled flag as it
was (here: true). -/
theorem c5_counterexample :
    (onPushClose { cansend := true }).1.cansend = true ∧
      ¬ (onPushClose { cansend := true }).1.cansend = false :=
  ⟨rfl, by simp [onPushClose]⟩

/-- C5 amended: on a connection-level error event every in-flight entry is
requeued onto the pending queue in table (ascending-key) order with no
completion handler invoked, the in-flight table is cleared, one event-log
entry is appended, and suspend() runs so the send-enabled flag is false; on
a connection-level close event the very same requeue/clear/log happens but
suspend() is NOT called — the send-enabled flag keeps its previous value. -/
theorem c5_amended (st : NotifierState) (err : String)
    (hsorted : (st.notifications.map (fun p => p.1)).Sorted (· < ·)) :
    ((onPushError st err).1.pending =
        st.pending ++ st.notifications.map (fun p => p.2) ∧
      (onPushError st err).1.notifications = [] ∧
      (onPushError st err).2 = [] ∧
      (onPushError st err).1.elogs =
        st.elogs ++ [ELogEntry.mk err none (APNSerrors err)] ∧
      (onPushError st err).1.cansend = false ∧
      (onPushError st err).1.consumer = false) ∧
    ((onPushClose st).1.pending =
        st.pending ++ st.notifications.map (fun p => p.2) ∧
      (onPushClose st).1.notifications = [] ∧
      (onPushClose st).2 = [] ∧
      (onPushClose st).1.elogs = st.elogs ++ [ELogEntry.mk "closed" none none] ∧
      (onPushClose st).1.cansend = st.cansend) ∧
    (st.notifications.map (fun p => p.1)).Sorted (· < ·) := by
  refine ⟨?_, ?_, hsorted⟩
  · rw [onPushError, cleanup_neg1]
    exact ⟨rfl, rfl, rfl, rfl, rfl, rfl⟩
  · rw [onPushClose, cleanup_neg1]
    exact ⟨rfl, rfl, rfl, rfl, rfl⟩

/-- Witness for C5 at a concrete two-entry in-flight table. -/
theorem c5_amended_witness :
    (([(0, { alert := some "B" }), (1, { alert := some "C" })].map
        (fun p : Nat × Notification => p.1)).Sorted (· < ·)) ∧
    (onPushError { cansend := true, notifications := [(0, { alert := some "B" }), (1, { alert := some "C" })] } "boom").1.cansend = false ∧
    (onPushClose { cansend := true, notifications := [(0, { alert := some "B" }), (1, { alert := some "C" })] }).1.cansend = true :=
  ⟨by decide,
    ((c5_amended { cansend := true, notifications := [(0, { alert := some "B" }), (1, { alert := some "C" })] } "boom" (by decide)).1).2.2.2.2.1,
    by
      have h := ((c5_amended { cansend := true, notifications := [(0, { alert := some "B" }), (1, { alert := some "C" })] } "boom" (by decide)).2).1.2.2.2.2
      simpa using h⟩

/-! ## Claim C1 -/

/-- C1 as stated is false on the code: with a non-empty pending queue
([A]) and in-flight entries 0 ↦ B, 1 ↦ C, an error for sequence 0 requeues
C with pending.push, i.e. onto the BACK of the queue — the result is
[A, C], not the claimed front-insertion [C, A]. -/
theorem c1_counterexample :
    (onNotificationError { pending := [({ alert := some "A" } : Notification)], notifications := [(0, ({ alert := some "B" } : Notification)), (1, { alert := some "C" })] } "1" 0).map
        (fun r => r.1.pending.map (fun n => n.alert)) =
      some [some "A", some "C"] ∧
    (some [some "A", some "C"] : Option (List (Option String))) ≠
      some [some "C", some "A"] :=
  ⟨rfl, by decide⟩

/-- C1 amended: on notificationError(errorCode, k) with k in the in-flight
table, the failing notification's handler is invoked exactly once, first
and with the error; every other entry with sequence number at most k gets
its handler invoked with no error; every entry with sequence number
greater than k is requeued onto the BACK of the pending queue (behind
already-pending notifications, ahead of anything enqueued later),
preserving the original ascending order; the table is empty afterwards,
and (the dead error === 8 branch aside) the blacklist is unchanged. -/
theorem c1_amended (st : NotifierState) (err : String) (k : Nat)
    (nk : Notification)
    (hlook : lookupUid st.notifications k = some nk)
    (hsorted : (st.notifications.map (fun p => p.1)).Sorted (· < ·)) :
    onNotificationError st err k =
      some
        ({ st with
            elogs := st.elogs ++ [ELogEntry.mk err (some nk) (APNSerrors err)],
            notifications := [],
            pending := st.pending ++
              ((removeUid st.notifications k).filter
                (fun p => decide ((k : Int) < (p.1 : Int)))).map (fun p => p.2) },
         (nk, some err) ::
           ((removeUid st.notifications k).filter
             (fun p => !decide ((k : Int) < (p.1 : Int)))).map
               (fun p => (p.2, none))) ∧
    ((((removeUid st.notifications k).filter
        (fun p => decide ((k : Int) < (p.1 : Int)))).map
          (fun p => p.1)).Sorted (· < ·)) := by
  constructor
  · simp [onNotificationError, hlook, jsStrictEq, cleanup_eq]
  · have h1 : List.Sublist
        ((removeUid st.notifications k).filter
          (fun p => decide ((k : Int) < (p.1 : Int)))) st.notifications :=
      (List.filter_sublist _).trans (List.filter_sublist _)
    exact hsorted.sublist (h1.map (fun p : Nat × Notification => p.1))

/-- Witness for C1 at a concrete error: entries 0 ↦ B, 1 ↦ C, error for
sequence 0: B's handler fires once with the error, C is requeued, the
table is emptied. -/
theorem c1_amended_witness :
    (onNotificationError { pending := ([] : List Notification), notifications := [(0, ({ alert := some "B" } : Notification)), (1, { alert := some "C" })] } "1" 0).map
        (fun r => (r.1.pending.map (fun n => n.alert), r.1.notifications.length,
          r.2.map (fun c => c.2))) =
      some ([some "C"], 0, [some "1"]) := by
  rw [(c1_amended { pending := ([] : List Notification), notifications := [(0, ({ alert := some "B" } : Notification)), (1, { alert := some "C" })] } "1" 0 { alert := some "B" } rfl (by decide)).1]
  rfl

/-! ## Claim C3 -/

/-- C3 is what the code intends but not what it does: the inbound record
08 08 00 00 00 00 is decoded and re-emitted as
notificationError("8", 0) — the errorCode is the STRING data[1].toString().
The handler then tests error === 8 against the NUMBER 8; strict equality
across types is false, so the blacklist is never touched, although the
failing notification's handler does fire with the error and exactly one
event-log entry is appended.  The code's own comment ("If it is a
device-token error we add it to the black list") documents the intent the
comparison fails to implement. -/
theorem c3_code_bug_eval :
    pushOnData [8, 8, 0, 0, 0, 0] = [PushEvent.notificationError "8" 0] ∧
    (onNotificationError { notifications := [(0, ({ device := some (Device.mk "ab"), alert := some "B" } : Notification))] } "8" 0).map
        (fun r => (r.1.blacklist, r.1.elogs.length, r.2.map (fun c => c.2))) =
      some ([], 1, [some "8"]) :=
  ⟨rfl, rfl⟩

/-! ## Claim C6 -/

/-- C6 as stated is false on the code: a notification whose payload has
custom content only (foo: "bar"; no alert, sound or badge) satisfies every
condition of the claim's validity characterisation — the device token
renders, the serialized payload is 22 bytes, custom payload content is
present — yet isValid() returns false, because the code checks only
normalized.aps.alert / sound / badge. -/
theorem c6_counterexample :
    ({ device := some (Device.mk "ab"), payload := JFields.cons "foo" (.str "bar") .nil } : Notification).isValid = false ∧
    (Device.mk "ab").isValid = true ∧
    byteLength (jsonStringify (.obj ({ device := some (Device.mk "ab"), payload := JFields.cons "foo" (.str "bar") .nil } : Notification).normalizedPayload)) ≤ 256 ∧
    ({ device := some (Device.mk "ab"), payload := JFields.cons "foo" (.str "bar") .nil } : Notification).payload ≠ .nil :=
  ⟨rfl, rfl, by decide, by simp⟩

/-- C6 amended: isValid() returns true iff the notification has a device
whose token renders to binary without error, the JSON-serialized merged
payload is at most 256 bytes, and at least one of aps.alert, aps.sound,
aps.badge is truthy in the normalized payload — custom payload content
alone does not count; and notify on a notification that has a device, is
not blacklisted and fails this check returns false, invokes the completion
handler with the invalid error, and leaves the state (pending queue
included) untouched without dispatching. -/
theorem c6_amended (n : Notification) (d : Device) (st : NotifierState)
    (hdev : n.device = some d) :
    (n.isValid = true ↔
      (d.isValid = true ∧
        byteLength (jsonStringify (.obj n.normalizedPayload)) ≤ 256 ∧
        (jsTruthyOpt ((((n.normalizedPayload).get "aps").getD .null).getField "alert") ||
         jsTruthyOpt ((((n.normalizedPayload).get "aps").getD .null).getField "sound") ||
         jsTruthyOpt ((((n.normalizedPayload).get "aps").getD .null).getField "badge")) =
          true)) ∧
    (n.isValid = false → st.blacklist.contains d.token = false →
      notify st n = some (false, st, [(n, some "invalid")])) := by
  constructor
  · rw [Notification.isValid, hdev]
    by_cases h1 : d.isValid = true
    · by_cases h2 : 256 < byteLength (jsonStringify (.obj n.normalizedPayload))
      · simp only [h1, Bool.not_true, if_pos h2]
        constructor
        · intro hh
          simp at hh
        · rintro ⟨_, hle, _⟩
          omega
      · by_cases h3 : (jsTruthyOpt ((((n.normalizedPayload).get "aps").getD .null).getField "alert") ||
            jsTruthyOpt ((((n.normalizedPayload).get "aps").getD .null).getField "sound") ||
            jsTruthyOpt ((((n.normalizedPayload).get "aps").getD .null).getField "badge")) = true
        · simp [h1, h2, h3]
          omega
        · simp [h1, h2, h3]
    · have h1f : d.isValid = false := by
        cases hq : d.isValid
        · rfl
        · exact absurd hq h1
      simp [h1f]
  · intro hinv hbl
    simp only [notify, hdev]
    rw [if_neg (by rw [hbl]; simp), if_pos (by rw [hinv]; simp)]

/-- Witness for C6 at a custom-content-only notification: it has a device,
fails isValid, and notify rejects it with the invalid error leaving the
state untouched. -/
theorem c6_amended_witness :
    ({ device := some (Device.mk "ab"), payload := JFields.cons "x" (.str "y") .nil } : Notification).device = some (Device.mk "ab") ∧
    notify {} { device := some (Device.mk "ab"), payload := JFields.cons "x" (.str "y") .nil } =
      some (false, {},
        [({ device := some (Device.mk "ab"), payload := JFields.cons "x" (.str "y") .nil }, some "invalid")]) :=
  ⟨rfl,
    (c6_amended { device := some (Device.mk "ab"), payload := JFields.cons "x" (.str "y") .nil } (Device.mk "ab") {} rfl).2 rfl rfl⟩

end NodeApns
